import Mathlib

/-!
Verification of the lockedin escrow bill-payment contract
(src/contracts/lockedin/src/lib.rs), shallowly embedded in Lean.

Storage is modelled as association lists, amounts as Int (i128 in the
source; the spec treats amounts as arbitrary-precision), timestamps and
sequence numbers as Nat (u64/u32).  Token transfers and contract events
are collected in output lists.  The soroban `require_auth` primitive is
modelled by a set of authorized principals carried in the call
environment; an auth failure (a host trap in soroban) is modelled as an
`Unauthorized` error result.
-/

namespace LockedIn

/-! ## Calendar arithmetic

The contract uses the Rust `time` crate (proleptic Gregorian calendar)
for `get_current_month`, `validate_day_of_month` and `add_one_month`.
The civil-from-days / days-from-civil algorithms below are the standard
era-based conversions, valid for all timestamps at or after the 1970
epoch (the contract only ever converts u64 unix timestamps). -/

/-- Convert a count of days since 1970-01-01 to a civil (year, month, day). -/
def civilFromDays (z : Nat) : Nat × Nat × Nat :=
  let z' := z + 719468
  let era := z' / 146097
  let doe := z' % 146097
  let yoe := (doe - doe / 1460 + doe / 36524 - doe / 146097) / 365
  let y := yoe + era * 400
  let doy := doe - (365 * yoe + yoe / 4 - yoe / 100)
  let mp := (5 * doy + 2) / 153
  let d := doy - (153 * mp + 2) / 5 + 1
  let m := if mp < 10 then mp + 3 else mp - 9
  (if m ≤ 2 then y + 1 else y, m, d)

/-- Day of the month of a timestamp (used by `validate_day_of_month`). -/
def dayOfMonth (t : Nat) : Nat :=
  (civilFromDays (t / 86400)).2.2

/-! ## Errors, data model, environment -/

inductive Error where
  | Unauthorized
  | AdminNotSet
  | CycleNotFound
  | CycleAlreadyExists
  | CycleNotActive
  | CycleAlreadyEnded
  | InvalidCycleDuration
  | InsufficientFunds
  | BillNotFound
  | BillAlreadyPaid
  | InvalidBillAmount
  | InvalidDueDate
  | BillLeadTimeTooShort
  | MonthlyAdjustmentLimitReached
  | InvalidRecurrence
  | CycleNotEnded
  | BillNotDueYet
  | NoPendingAdminTransfer
  | AdminTransferExpired
  | PendingAdminTransferExists
  | InvalidFeePercentage
  | InvalidTimestamp
  | Reentrancy
  | UsdcTokenNotSet
  | FeeRecipientNotSet
  | FeePercentageNotSet
  deriving Repr, DecidableEq

abbrev Address := Nat

inductive BillCategory where
  | Housing
  | Utilities
  | Transportation
  | Food
  | Healthcare
  | Insurance
  | Entertainment
  | Education
  | Debt
  | Other
  deriving Repr, DecidableEq

structure BillCycle where
  user : Address
  start_date : Nat
  end_date : Nat
  total_deposited : Int
  operating_fee : Int
  fee_percentage : Nat
  is_active : Bool
  last_adjustment_month : Nat
  deriving Repr, DecidableEq

structure Bill where
  id : Nat
  cycle_id : Nat
  name : String
  amount : Int
  due_date : Nat
  is_paid : Bool
  is_recurring : Bool
  recurrence_calendar : List Nat
  last_paid_date : Option Nat
  category : BillCategory
  deriving Repr, DecidableEq

structure Transfer where
  src : Address
  dst : Address
  amount : Int
  deriving Repr, DecidableEq

inductive Event where
  | AdminTransferInitiated (new_admin : Address)
  | AdminTransferred (new_admin : Address)
  | FeeRecipientUpdated (recipient : Address)
  | CycleCreated (cycle_id : Nat) (user : Address)
  | CycleEnded (cycle_id : Nat) (surplus : Int)
  | BillAdded (bill_id : Nat) (cycle_id : Nat)
  | BillPaid (bill_id : Nat) (amount : Int)
  | BillCancelled (bill_id : Nat)
  deriving Repr, DecidableEq

/-! ## Storage as association lists -/

def lookupA {α : Type} : List (Nat × α) → Nat → Option α
  | [], _ => none
  | (k', v) :: rest, k => if k' = k then some v else lookupA rest k

def setA {α : Type} : List (Nat × α) → Nat → α → List (Nat × α)
  | [], k, v => [(k, v)]
  | (k', v') :: rest, k, v =>
    if k' = k then (k, v) :: rest else (k', v') :: setA rest k v

def removeA {α : Type} : List (Nat × α) → Nat → List (Nat × α)
  | [], _ => []
  | (k', v') :: rest, k =>
    if k' = k then removeA rest k else (k', v') :: removeA rest k

/-- The contract's persistent and instance storage, field per `DataKey`. -/
structure ContractState where
  admin : Option Address
  pendingAdmin : Option Address
  transferExpiry : Option Nat
  usdcToken : Option Address
  feeRecipient : Option Address
  feePercentage : Option Nat
  cycleCounter : Nat
  billCounter : Nat
  cycles : List (Nat × BillCycle)
  bills : List (Nat × Bill)
  userCycles : List (Address × List Nat)
  cycleBills : List (Nat × List Nat)
  allCycles : List Nat
  reentrancyLock : Bool
  deriving Repr, DecidableEq

/-- Call environment: ledger timestamp and sequence, the contract's own
address, and the set of principals that have authorized this call. -/
structure Env where
  now : Nat
  sequence : Nat
  contractAddr : Address
  auth : List Address
  deriving Repr, DecidableEq

instance {ε α : Type} [DecidableEq ε] [DecidableEq α] : DecidableEq (Except ε α) :=
  fun a b =>
    match a, b with
    | .ok x, .ok y =>
      if h : x = y then isTrue (by rw [h]) else isFalse (by simp [h])
    | .ok _, .error _ => isFalse (by simp)
    | .error _, .ok _ => isFalse (by simp)
    | .error x, .error y =>
      if h : x = y then isTrue (by rw [h]) else isFalse (by simp [h])

/-- Result of one invocation: the returned value or error, the storage
state at return, and the token transfers and events performed. -/
structure Outcome (α : Type) where
  res : Except Error α
  state : ContractState
  transfers : List Transfer
  events : List Event
  deriving Repr, DecidableEq

def errO {α : Type} (e : Error) (s : ContractState) : Outcome α :=
  { res := .error e, state := s, transfers := [], events := [] }

/-- Embeds the RAII `ReentrancyGuard` (lib.rs lines 18-37): fail with
`Reentrancy` if the lock flag is set, otherwise set it, run the body,
and remove the flag on every return path when the guard is dropped. -/
def withGuard {α : Type} (s : ContractState) (body : ContractState → Outcome α) :
    Outcome α :=
  if s.reentrancyLock then errO .Reentrancy s
  else
    let out := body { s with reentrancyLock := true }
    { out with state := { out.state with reentrancyLock := false } }

def requireAdmin (env : Env) (s : ContractState) : Option Error :=
  match s.admin with
  | none => some .AdminNotSet
  | some a => if env.auth.contains a then none else some .Unauthorized

/-- Embeds `calculate_fee`: `(amount * fee_percentage) / 10000` in i128
arithmetic (Rust `/` truncates toward zero). -/
def calculate_fee (amount : Int) (fee_percentage : Nat) : Int :=
  Int.tdiv (amount * (fee_percentage : Int)) 10000

/-! ## Cycle management -/

/-- Embeds `create_cycle` (lib.rs lines 215-305).  Note that the source
takes no reentrancy guard here. -/
def create_cycle (env : Env) (s : ContractState) (user : Address)
    (duration_months : Nat) (amount : Int) : Outcome Nat :=
  if ¬ env.auth.contains user then errO .Unauthorized s
  else if duration_months < 1 ∨ 12 < duration_months then errO .InvalidCycleDuration s
  else if amount ≤ 0 then errO .InsufficientFunds s
  else
    match s.feePercentage with
    | none => errO .FeePercentageNotSet s
    | some fee_percentage =>
      let operating_fee := calculate_fee amount fee_percentage
      let current_time := env.now
      let duration_seconds := duration_months * 30 * 24 * 60 * 60
      let end_date := current_time + duration_seconds
      let cycle_id := s.cycleCounter + 1
      let s := { s with cycleCounter := cycle_id }
      let cycle : BillCycle :=
        { user := user
          start_date := current_time
          end_date := end_date
          total_deposited := amount
          operating_fee := operating_fee
          fee_percentage := fee_percentage
          is_active := true
          last_adjustment_month := 0 }
      let s := { s with cycles := setA s.cycles cycle_id cycle }
      let user_cycles := (lookupA s.userCycles user).getD []
      let s := { s with userCycles := setA s.userCycles user (user_cycles ++ [cycle_id]) }
      let s := { s with allCycles := s.allCycles ++ [cycle_id] }
      let s := { s with cycleBills := setA s.cycleBills cycle_id [] }
      match s.usdcToken with
      | none => errO .UsdcTokenNotSet s
      | some _ =>
        match s.feeRecipient with
        | none => errO .FeeRecipientNotSet s
        | some fee_recipient =>
          { res := .ok cycle_id
            state := s
            transfers := [{ src := user, dst := env.contractAddr, amount := amount },
                          { src := env.contractAddr, dst := fee_recipient, amount := operating_fee }]
            events := [.CycleCreated cycle_id user] }

/-- Amount contributed by one bill id to the paid-bill total of
`end_cycle_internal` (lib.rs lines 903-915). -/
def paidAmount (s : ContractState) (bill_id : Nat) : Int :=
  match lookupA s.bills bill_id with
  | some b => if b.is_paid then b.amount else 0
  | none => 0

/-- Sum of the amounts of the paid bills in a cycle's bill index, as
computed by `end_cycle_internal`. -/
def totalPaidBills (s : ContractState) (cycle_id : Nat) : Int :=
  (((lookupA s.cycleBills cycle_id).getD []).map (paidAmount s)).sum

/-- Embeds `end_cycle_internal` (lib.rs lines 891-932). -/
def end_cycle_internal (env : Env) (s : ContractState) (cycle_id : Nat)
    (cycle : BillCycle) : Outcome Unit :=
  if ¬ cycle.is_active then errO .CycleAlreadyEnded s
  else
    let surplus := cycle.total_deposited - cycle.operating_fee - totalPaidBills s cycle_id
    let s := { s with cycles := setA s.cycles cycle_id { cycle with is_active := false } }
    if 0 < surplus then
      match s.usdcToken with
      | none => errO .UsdcTokenNotSet s
      | some _ =>
        { res := .ok ()
          state := s
          transfers := [{ src := env.contractAddr, dst := cycle.user, amount := surplus }]
          events := [.CycleEnded cycle_id surplus] }
    else
      { res := .ok (), state := s, transfers := [], events := [.CycleEnded cycle_id surplus] }

/-- Embeds `end_cycle` (lib.rs lines 350-367).  The source performs no
`require_auth` call here; its doc comment reads "Anyone can end a cycle
after the end_date has passed". -/
def end_cycle (env : Env) (s : ContractState) (cycle_id : Nat) : Outcome Unit :=
  withGuard s fun s =>
    match lookupA s.cycles cycle_id with
    | none => errO .CycleNotFound s
    | some cycle =>
      if env.now < cycle.end_date then errO .CycleNotEnded s
      else end_cycle_internal env s cycle_id cycle

/-- Embeds `admin_end_cycle` (lib.rs lines 370-382). -/
def admin_end_cycle (env : Env) (s : ContractState) (cycle_id : Nat) : Outcome Unit :=
  match requireAdmin env s with
  | some e => errO e s
  | none =>
    withGuard s fun s =>
      match lookupA s.cycles cycle_id with
      | none => errO .CycleNotFound s
      | some cycle => end_cycle_internal env s cycle_id cycle

/-! ## Bill addition and allocation accounting -/

/-- Expected occurrences of a recurring bill:
`max(cycle_duration_days / 30, 1)` (lib.rs lines 801-802, 824-825). -/
def occurrencesOf (cycle : BillCycle) : Int :=
  (Nat.max ((cycle.end_date - cycle.start_date) / 86400 / 30) 1 : Nat)

/-- Allocation cost of one bill: `amount * occurrences` when recurring,
`amount` otherwise. -/
def billCost (cycle : BillCycle) (amount : Int) (is_recurring : Bool) : Int :=
  if is_recurring then amount * occurrencesOf cycle else amount

/-- Embeds `calculate_total_allocation` (lib.rs lines 785-811): sums the
costs of the bills listed in the cycle's stored bill index. -/
def calculate_total_allocation (s : ContractState) (cycle_id : Nat)
    (cycle : BillCycle) : Int :=
  (((lookupA s.cycleBills cycle_id).getD []).map (fun bill_id =>
    match lookupA s.bills bill_id with
    | some b => billCost cycle b.amount b.is_recurring
    | none => 0)).sum

/-- Embeds `validate_allocation` (lib.rs lines 813-839). -/
def validate_allocation (s : ContractState) (cycle_id : Nat) (cycle : BillCycle)
    (new_bill_amount : Int) (is_recurring : Bool) : Option Error :=
  let existing_allocation := calculate_total_allocation s cycle_id cycle
  let new_bill_cost := billCost cycle new_bill_amount is_recurring
  if cycle.total_deposited - cycle.operating_fee < existing_allocation + new_bill_cost then
    some .InsufficientFunds
  else none

/-- One entry of an `add_bills` batch. -/
structure BillInput where
  name : String
  amount : Int
  due_date : Nat
  is_recurring : Bool
  recurrence_calendar : List Nat
  category : BillCategory
  deriving Repr, DecidableEq

/-- The per-entry validations of the `add_bills` loop body, in source
order (lib.rs lines 413-433).  The allocation check reads the cycle's
bill index from storage via `calculate_total_allocation`. -/
def validateEntry (env : Env) (s : ContractState) (cycle_id : Nat) (cycle : BillCycle)
    (b : BillInput) : Option Error :=
  if b.amount ≤ 0 then some .InvalidBillAmount
  else if b.due_date < cycle.start_date ∨ cycle.end_date < b.due_date then some .InvalidDueDate
  else if 28 < dayOfMonth b.due_date then some .InvalidDueDate
  else if b.due_date < env.now + 7 * 24 * 60 * 60 then some .BillLeadTimeTooShort
  else if b.is_recurring && b.recurrence_calendar.any (fun m => decide (m < 1 ∨ 12 < m)) then
    some .InvalidRecurrence
  else validate_allocation s cycle_id cycle b.amount b.is_recurring

/-- The first validation error of a batch, each entry checked against
the same pre-call storage (within one `add_bills` call the stored bill
index is only rewritten after the loop, so every entry's allocation
check reads the pre-call index). -/
def firstEntryError (env : Env) (s : ContractState) (cycle_id : Nat) (cycle : BillCycle) :
    List BillInput → Option Error
  | [] => none
  | b :: rest =>
    match validateEntry env s cycle_id cycle b with
    | some e => some e
    | none => firstEntryError env s cycle_id cycle rest

/-- The `add_bills` per-entry loop (lib.rs lines 412-457): validate the
entry, then persist the bill and extend the in-memory index; the index
is written back to storage only after the loop (lines 459-462). -/
def addBillsLoop (env : Env) (cycle_id : Nat) (cycle : BillCycle) :
    List BillInput → ContractState → List Nat → List Nat → List Event →
    Outcome (List Nat)
  | [], s, cycle_bills, bill_ids, evs =>
    { res := .ok bill_ids
      state := { s with cycleBills := setA s.cycleBills cycle_id cycle_bills }
      transfers := []
      events := evs }
  | b :: rest, s, cycle_bills, bill_ids, evs =>
    match validateEntry env s cycle_id cycle b with
    | some e => { res := .error e, state := s, transfers := [], events := evs }
    | none =>
      let bill_id := s.billCounter + 1
      let bill : Bill :=
        { id := bill_id
          cycle_id := cycle_id
          name := b.name
          amount := b.amount
          due_date := b.due_date
          is_paid := false
          is_recurring := b.is_recurring
          recurrence_calendar := b.recurrence_calendar
          last_paid_date := none
          category := b.category }
      let s := { s with billCounter := bill_id, bills := setA s.bills bill_id bill }
      addBillsLoop env cycle_id cycle rest s (cycle_bills ++ [bill_id])
        (bill_ids ++ [bill_id]) (evs ++ [.BillAdded bill_id cycle_id])

/-- The body of `add_bills` (lib.rs lines 386-465), before host
atomicity is applied. -/
def add_bills_body (env : Env) (s : ContractState) (cycle_id : Nat)
    (bills : List BillInput) : Outcome (List Nat) :=
  match lookupA s.cycles cycle_id with
  | none => errO .CycleNotFound s
  | some cycle =>
    if ¬ env.auth.contains cycle.user then errO .Unauthorized s
    else if ¬ cycle.is_active then errO .CycleNotActive s
    else addBillsLoop env cycle_id cycle bills s ((lookupA s.cycleBills cycle_id).getD []) [] []

/-- Modelled from the spec: the host platform's all-or-nothing
invocation semantics, which are not part of the contract source — "the
platform's all-or-nothing invocation semantics are relied upon for
this"; on an error result every storage write, transfer and event of
the invocation is discarded. -/
def atomically {α : Type} (body : ContractState → Outcome α) (s : ContractState) :
    Outcome α :=
  let out := body s
  match out.res with
  | .error e => errO e s
  | .ok _ => out

/-- `add_bills` as invoked through the host. -/
def add_bills (env : Env) (s : ContractState) (cycle_id : Nat)
    (bills : List BillInput) : Outcome (List Nat) :=
  atomically (fun s => add_bills_body env s cycle_id bills) s

/-! ## Bill payment -/

/-- The recurring-bill double-payment window check of `pay_bill` and
`admin_pay_bill`: blocked when the bill is recurring, `last_paid_date`
is set, and `now - last_paid_date < 30 days` (u64 arithmetic). -/
def doublePayBlocked (now : Nat) (bill : Bill) : Bool :=
  bill.is_recurring &&
    (match bill.last_paid_date with
     | some last_paid => decide (now - last_paid < 30 * 86400)
     | none => false)

/-- The post-payment bill mutation shared by `pay_bill` (lib.rs lines
549-565) and `admin_pay_bill` (lines 620-637): record `last_paid_date`,
then advance a recurring bill by 30 days when the next due date falls
before the cycle end, otherwise mark it paid. -/
def payAdvance (now : Nat) (cycle_end : Nat) (bill : Bill) : Bill :=
  let bill := { bill with last_paid_date := some now }
  if bill.is_recurring then
    let next_due_date := bill.due_date + 30 * 86400
    if next_due_date < cycle_end then
      { bill with due_date := next_due_date, is_paid := false }
    else { bill with is_paid := true }
  else { bill with is_paid := true }

/-- Embeds `pay_bill` (lib.rs lines 505-581). -/
def pay_bill (env : Env) (s : ContractState) (bill_id : Nat) : Outcome Unit :=
  withGuard s fun s =>
    match lookupA s.bills bill_id with
    | none => errO .BillNotFound s
    | some bill =>
      match lookupA s.cycles bill.cycle_id with
      | none => errO .CycleNotFound s
      | some cycle =>
        if ¬ env.auth.contains cycle.user then errO .Unauthorized s
        else if bill.is_paid then errO .BillAlreadyPaid s
        else if ¬ cycle.is_active then errO .CycleNotActive s
        else if (env.now / 86400) * 86400 ≠ (bill.due_date / 86400) * 86400 then
          errO .BillNotDueYet s
        else if doublePayBlocked env.now bill then errO .BillAlreadyPaid s
        else
          let bill' := payAdvance env.now cycle.end_date bill
          let s := { s with bills := setA s.bills bill_id bill' }
          match s.usdcToken with
          | none => errO .UsdcTokenNotSet s
          | some _ =>
            { res := .ok ()
              state := s
              transfers := [{ src := env.contractAddr, dst := cycle.user, amount := bill'.amount }]
              events := [.BillPaid bill_id bill'.amount] }

/-- Embeds `admin_pay_bill` (lib.rs lines 584-653): admin-authorized,
no same-day due-date check. -/
def admin_pay_bill (env : Env) (s : ContractState) (bill_id : Nat) : Outcome Unit :=
  match requireAdmin env s with
  | some e => errO e s
  | none =>
    withGuard s fun s =>
      match lookupA s.bills bill_id with
      | none => errO .BillNotFound s
      | some bill =>
        if bill.is_paid then errO .BillAlreadyPaid s
        else
          match lookupA s.cycles bill.cycle_id with
          | none => errO .CycleNotFound s
          | some cycle =>
            if ¬ cycle.is_active then errO .CycleNotActive s
            else if doublePayBlocked env.now bill then errO .BillAlreadyPaid s
            else
              let bill' := payAdvance env.now cycle.end_date bill
              let s := { s with bills := setA s.bills bill_id bill' }
              match s.usdcToken with
              | none => errO .UsdcTokenNotSet s
              | some _ =>
                { res := .ok ()
                  state := s
                  transfers := [{ src := env.contractAddr, dst := cycle.user, amount := bill'.amount }]
                  events := [.BillPaid bill_id bill'.amount] }

/-! ## Skip and delete -/

def cycleA : BillCycle :=
  { user := 5, start_date := 0, end_date := 2592000, total_deposited := 100,
    operating_fee := 2, fee_percentage := 200, is_active := true,
    last_adjustment_month := 0 }

def stateA : ContractState :=
  { admin := some 9, pendingAdmin := none, transferExpiry := none,
    usdcToken := some 7, feeRecipient := some 8, feePercentage := some 200,
    cycleCounter := 1, billCounter := 0,
    cycles := [(1, cycleA)], bills := [], userCycles := [(5, [1])],
    cycleBills := [(1, [])], allCycles := [1], reentrancyLock := false }

def envA : Env := { now := 1213200, sequence := 0, contractAddr := 0, auth := [5] }

/-- A valid non-recurring bill entry of amount 60, due 1970-01-23. -/
def entry60 : BillInput :=
  { name := "rent", amount := 60, due_date := 1900800, is_recurring := false,
    recurrence_calendar := [], category := .Housing }

/-- A recurring bill of amount 10 due 1970-01-23, not yet paid. -/
def billR : Bill :=
  { id := 1, cycle_id := 1, name := "power", amount := 10, due_date := 1900800,
    is_paid := false, is_recurring := true, recurrence_calendar := [],
    last_paid_date := none, category := .Utilities }

def stateR : ContractState :=
  { stateA with billCounter := 1, bills := [(1, billR)], cycleBills := [(1, [1])] }

/-- Call environment at the cycle's end date with nobody authorized. -/
def envE : Env := { now := 2592000, sequence := 0, contractAddr := 0, auth := [] }

/-- Call environment on the bill's due day. -/
def envP : Env := { envA with now := 1900900 }

def stateLock : ContractState := { stateA with reentrancyLock := true }

/-- A paid non-recurring bill of amount 20. -/
def billP : Bill :=
  { id := 2, cycle_id := 1, name := "tv", amount := 20, due_date := 1900800,
    is_paid := true, is_recurring := false, recurrence_calendar := [],
    last_paid_date := some 1900800, category := .Entertainment }

def stateP : ContractState :=
  { stateA with
    billCounter := 2
    bills := [(1, billR), (2, billP)]
    cycleBills := [(1, [1, 2])] }

/-- A recurring unpaid bill whose current occurrence was paid at 1900800. -/
def billRL : Bill := { billR with last_paid_date := some 1900800 }

def stateRL : ContractState :=
  { stateA with billCounter := 1, bills := [(1, billRL)], cycleBills := [(1, [1])] }

theorem lookupA_setA_self {α : Type} (l : List (Nat × α)) (k : Nat) (v : α) :
    lookupA (setA l k v) k = some v := by
  induction l with
  | nil => simp [setA, lookupA]
  | cons p rest ih =>
    obtain ⟨k', v'⟩ := p
    by_cases h : k' = k
    · simp [setA, h, lookupA]
    · simp [setA, h, lookupA, ih]

theorem lookupA_removeA_self {α : Type} (l : List (Nat × α)) (k : Nat) :
    lookupA (removeA l k) k = none := by
  induction l with
  | nil => simp [removeA, lookupA]
  | cons p rest ih =>
    obtain ⟨a, b⟩ := p
    by_cases ha : a = k
    · simp [removeA, ha, ih]
    · simp [removeA, ha, lookupA, ih]

theorem lookupA_removeA_ne {α : Type} (l : List (Nat × α)) (k k' : Nat)
    (h : k ≠ k') : lookupA (removeA l k) k' = lookupA l k' := by
  induction l with
  | nil => simp [removeA]
  | cons p rest ih =>
    obtain ⟨a, b⟩ := p
    by_cases ha : a = k
    · subst ha; simp [removeA, lookupA, h, ih]
    · simp [removeA, ha, lookupA, ih]

theorem lookupA_none_removeA {α : Type} (l : List (Nat × α)) (j k : Nat)
    (h : lookupA l k = none) : lookupA (removeA l j) k = none := by
  by_cases hjk : j = k
  · subst hjk; exact lookupA_removeA_self l j
  · rw [lookupA_removeA_ne l j k hjk]; exact h

theorem withGuard_locked {α : Type} (s : ContractState) (body : ContractState → Outcome α)
    (h : s.reentrancyLock = true) : withGuard s body = errO .Reentrancy s := by
  simp [withGuard, h]

theorem withGuard_lock_clear {α : Type} (s : ContractState) (body : ContractState → Outcome α)
    (h : s.reentrancyLock = false) :
    (withGuard s body).state.reentrancyLock = false := by
  simp [withGuard, h]

theorem clearLock_eq (s : ContractState) (h : s.reentrancyLock = false) :
    { s with reentrancyLock := false } = s := by
  cases s
  simp_all

/-! ## Claim theorems -/

/-- C1: the allocation invariant fails on the code.  A single
`add_bills` batch of two 60-unit bills against an allocatable balance
of `total_deposited - operating_fee = 98` is accepted in full (both
entries validate, neither raises `InsufficientFunds`), because each
entry's allocation check reads the cycle's bill index from storage and
that index is only rewritten after the loop, so the check never sees
the earlier entries of the same batch.  The resulting total allocation
is 120 > 98. -/
theorem addBills_batch_overallocation :
    (add_bills envA stateA 1 [entry60, entry60]).res = .ok [1, 2] ∧
    calculate_total_allocation (add_bills envA stateA 1 [entry60, entry60]).state 1 cycleA = 120 ∧
    cycleA.total_deposited - cycleA.operating_fee = 98 ∧
    firstEntryError envA stateA 1 cycleA [entry60, entry60] = none := by
  decide

/-- C2 counterexample: `end_cycle` succeeds with an empty authorization
set (the source performs no `require_auth` at all; its comment reads
"Anyone can end a cycle after the end_date has passed"), refuting the
claim that `end_cycle` requires the cycle owner's authorization. -/
theorem end_cycle_no_auth_counterexample :
    envE.auth = [] ∧
    (end_cycle envE stateR 1).res = .ok () ∧
    (end_cycle envE stateR 1).transfers = [{ src := 0, dst := 5, amount := 98 }] ∧
    (end_cycle envE stateR 1).events = [.CycleEnded 1 98] := by
  decide

/-- C4 counterexample: `create_cycle` performs external value transfers
but takes no reentrancy guard: with the `ReentrancyLock` flag already
set it succeeds (instead of failing with `Reentrancy`) and completes
with the flag still set. -/
theorem create_cycle_unguarded_counterexample :
    stateLock.reentrancyLock = true ∧
    (create_cycle envA stateLock 5 1 100).res = .ok 2 ∧
    (create_cycle envA stateLock 5 1 100).transfers =
      [{ src := 5, dst := 0, amount := 100 }, { src := 0, dst := 8, amount := 2 }] ∧
    (create_cycle envA stateLock 5 1 100).state.reentrancyLock = true := by
  decide

/-- C5: for duration in [1,12] and positive amount (on a configured
contract), `create_cycle` succeeds with `end_date = start_date +
duration_months * 30 * 86400` and `operating_fee = (amount *
fee_percentage) / 10000` (truncated division, i.e. floor for positive
operands), transferring `amount` from the user to the contract and the
fee from the contract to the fee recipient; duration outside [1,12]
fails `InvalidCycleDuration`, non-positive amount fails
`InsufficientFunds`, in both cases without state change. -/
theorem create_cycle_spec (env : Env) (s : ContractState) (user : Address)
    (duration_months : Nat) (amount : Int) (fp : Nat) (tok fr : Address)
    (ha : env.auth.contains user = true) :
    (1 ≤ duration_months → duration_months ≤ 12 → 0 < amount →
      s.feePercentage = some fp → s.usdcToken = some tok → s.feeRecipient = some fr →
      (create_cycle env s user duration_months amount).res = .ok (s.cycleCounter + 1) ∧
      (∃ c : BillCycle,
        lookupA (create_cycle env s user duration_months amount).state.cycles
          (s.cycleCounter + 1) = some c ∧
        c.user = user ∧ c.start_date = env.now ∧
        c.end_date = env.now + duration_months * 30 * 86400 ∧
        c.total_deposited = amount ∧
        c.operating_fee = Int.tdiv (amount * (fp : Int)) 10000 ∧
        c.is_active = true) ∧
      (create_cycle env s user duration_months amount).transfers =
        [{ src := user, dst := env.contractAddr, amount := amount },
         { src := env.contractAddr, dst := fr,
           amount := Int.tdiv (amount * (fp : Int)) 10000 }]) ∧
    ((duration_months < 1 ∨ 12 < duration_months) →
      create_cycle env s user duration_months amount = errO .InvalidCycleDuration s) ∧
    (1 ≤ duration_months → duration_months ≤ 12 → amount ≤ 0 →
      create_cycle env s user duration_months amount = errO .InsufficientFunds s) := by
  have ha' : user ∈ env.auth := by simpa using ha
  refine ⟨?_, ?_, ?_⟩
  · intro hd1 hd2 hamt hfp husdc hfr
    have h1 : ¬ (duration_months < 1 ∨ 12 < duration_months) := by omega
    have hamt' : ¬ amount ≤ 0 := by omega
    simp only [create_cycle]
    rw [if_neg (not_not_intro ha), if_neg h1, if_neg hamt', hfp, husdc, hfr]
    refine ⟨rfl, ⟨_, lookupA_setA_self _ _ _, rfl, rfl, ?_, rfl, rfl, rfl⟩, rfl⟩
    show env.now + duration_months * 30 * 24 * 60 * 60 = env.now + duration_months * 30 * 86400
    omega
  · intro hd
    have hd' : duration_months = 0 ∨ 12 < duration_months := by omega
    simp [create_cycle, ha', hd, hd']
  · intro hd1 hd2 hamt
    have h0 : ¬ (duration_months = 0 ∨ 12 < duration_months) := by omega
    have h1 : ¬ (duration_months < 1 ∨ 12 < duration_months) := by omega
    simp [create_cycle, ha', h0, h1, hamt]

/-- C5 witness: concrete instantiation of `create_cycle_spec`. -/
theorem create_cycle_spec_witness :
    (create_cycle envA stateA 5 1 100).res = .ok (stateA.cycleCounter + 1) ∧
    create_cycle envA stateA 5 0 100 = errO .InvalidCycleDuration stateA ∧
    create_cycle envA stateA 5 1 0 = errO .InsufficientFunds stateA := by
  refine ⟨((create_cycle_spec envA stateA 5 1 100 200 7 8 rfl).1
      (by decide) (by decide) (by decide) rfl rfl rfl).1, ?_, ?_⟩
  · exact (create_cycle_spec envA stateA 5 0 100 200 7 8 rfl).2.1 (by decide)
  · exact (create_cycle_spec envA stateA 5 1 0 200 7 8 rfl).2.2
      (by decide) (by decide) (by decide)

theorem payAdvance_amount (now ce : Nat) (b : Bill) :
    (payAdvance now ce b).amount = b.amount := by
  simp only [payAdvance]
  split_ifs <;> rfl

theorem payAdvance_last_paid (now ce : Nat) (b : Bill) :
    (payAdvance now ce b).last_paid_date = some now := by
  simp only [payAdvance]
  split_ifs <;> rfl

theorem payAdvance_recur_advance (now ce : Nat) (b : Bill)
    (h : b.is_recurring = true) (hlt : b.due_date + 30 * 86400 < ce) :
    (payAdvance now ce b).due_date = b.due_date + 30 * 86400 ∧
    (payAdvance now ce b).is_paid = false := by
  simp [payAdvance, h, hlt]

theorem payAdvance_recur_terminal (now ce : Nat) (b : Bill)
    (h : b.is_recurring = true) (hge : ¬ b.due_date + 30 * 86400 < ce) :
    (payAdvance now ce b).is_paid = true ∧
    (payAdvance now ce b).due_date = b.due_date := by
  simp [payAdvance, h, hge]

theorem payAdvance_nonrecur (now ce : Nat) (b : Bill)
    (h : b.is_recurring = false) :
    (payAdvance now ce b).is_paid = true ∧
    (payAdvance now ce b).due_date = b.due_date := by
  simp [payAdvance, h]

/-- The successful `pay_bill` path as one equation, under the explicit
success conditions. -/
theorem pay_bill_ok_eq (env : Env) (s : ContractState) (bill_id : Nat)
    (bill : Bill) (cycle : BillCycle) (tok : Address)
    (hlock : s.reentrancyLock = false)
    (hb : lookupA s.bills bill_id = some bill)
    (hc : lookupA s.cycles bill.cycle_id = some cycle)
    (ha : env.auth.contains cycle.user = true)
    (hnp : bill.is_paid = false)
    (hact : cycle.is_active = true)
    (hday : (env.now / 86400) * 86400 = (bill.due_date / 86400) * 86400)
    (hdp : doublePayBlocked env.now bill = false)
    (husdc : s.usdcToken = some tok) :
    pay_bill env s bill_id =
      { res := .ok ()
        state := { s with
          bills := setA s.bills bill_id (payAdvance env.now cycle.end_date bill)
          reentrancyLock := false }
        transfers := [{ src := env.contractAddr, dst := cycle.user,
                        amount := (payAdvance env.now cycle.end_date bill).amount }]
        events := [.BillPaid bill_id (payAdvance env.now cycle.end_date bill).amount] } := by
  simp only [pay_bill, withGuard, hlock]
  rw [if_neg (by simp)]
  simp only [hb, hc, ha, hnp, hact, hdp, husdc]
  rw [if_neg (by simp), if_neg (by simp [hact]), if_neg (not_not_intro hday)]
  simp

/-- C6: a successful `pay_bill` sets the bill's `last_paid_date` to the
current time; if the bill is recurring and `due_date + 30 days` is
before the cycle's end date the due date advances by 30 days and
`is_paid` resets to false, otherwise (recurring at its last occurrence,
or non-recurring) `is_paid` becomes true; the bill's amount is
transferred from the contract to the cycle owner. -/
theorem pay_bill_recurring_advance (env : Env) (s : ContractState) (bill_id : Nat)
    (bill : Bill) (cycle : BillCycle) (tok : Address)
    (hlock : s.reentrancyLock = false)
    (hb : lookupA s.bills bill_id = some bill)
    (hc : lookupA s.cycles bill.cycle_id = some cycle)
    (ha : env.auth.contains cycle.user = true)
    (hnp : bill.is_paid = false)
    (hact : cycle.is_active = true)
    (hday : (env.now / 86400) * 86400 = (bill.due_date / 86400) * 86400)
    (hdp : doublePayBlocked env.now bill = false)
    (husdc : s.usdcToken = some tok) :
    (pay_bill env s bill_id).res = .ok () ∧
    (pay_bill env s bill_id).transfers =
      [{ src := env.contractAddr, dst := cycle.user, amount := bill.amount }] ∧
    ∃ b' : Bill,
      lookupA (pay_bill env s bill_id).state.bills bill_id = some b' ∧
      b'.last_paid_date = some env.now ∧
      (bill.is_recurring = true → bill.due_date + 30 * 86400 < cycle.end_date →
        b'.due_date = bill.due_date + 30 * 86400 ∧ b'.is_paid = false) ∧
      (bill.is_recurring = true → ¬ bill.due_date + 30 * 86400 < cycle.end_date →
        b'.is_paid = true) ∧
      (bill.is_recurring = false → b'.is_paid = true) := by
  rw [pay_bill_ok_eq env s bill_id bill cycle tok hlock hb hc ha hnp hact hday hdp husdc]
  refine ⟨rfl, by rw [payAdvance_amount], payAdvance env.now cycle.end_date bill,
    lookupA_setA_self _ _ _, payAdvance_last_paid _ _ _, ?_, ?_, ?_⟩
  · intro hrec hlt
    exact payAdvance_recur_advance env.now cycle.end_date bill hrec hlt
  · intro hrec hge
    exact (payAdvance_recur_terminal env.now cycle.end_date bill hrec hge).1
  · intro hrec
    exact (payAdvance_nonrecur env.now cycle.end_date bill hrec).1

/-- C6 witness: paying the recurring fixture bill on its due day. -/
theorem pay_bill_recurring_advance_witness :
    (pay_bill envP stateR 1).res = .ok () ∧
    (pay_bill envP stateR 1).transfers = [{ src := 0, dst := 5, amount := 10 }] := by
  have h := pay_bill_recurring_advance envP stateR 1 billR cycleA 7
    rfl rfl rfl rfl rfl rfl (by decide) (by decide) rfl
  exact ⟨h.1, h.2.1⟩

/-- C7: `pay_bill` on an already-paid non-recurring bill fails with
`BillAlreadyPaid`; `pay_bill` on a recurring bill whose
`last_paid_date` is set and lies less than 30 days before now fails
with `BillAlreadyPaid`; in both cases the state is returned unchanged
and no transfer happens. -/
theorem pay_bill_anti_double_pay (env : Env) (s : ContractState) (bill_id : Nat)
    (bill : Bill) (cycle : BillCycle)
    (hlock : s.reentrancyLock = false)
    (hb : lookupA s.bills bill_id = some bill)
    (hc : lookupA s.cycles bill.cycle_id = some cycle)
    (ha : env.auth.contains cycle.user = true) :
    (bill.is_recurring = false → bill.is_paid = true →
      pay_bill env s bill_id = errO .BillAlreadyPaid s) ∧
    (∀ lp : Nat, bill.is_paid = false → cycle.is_active = true →
      (env.now / 86400) * 86400 = (bill.due_date / 86400) * 86400 →
      bill.is_recurring = true → bill.last_paid_date = some lp →
      lp ≤ env.now → env.now - lp < 30 * 86400 →
      pay_bill env s bill_id = errO .BillAlreadyPaid s) := by
  constructor
  · intro _ hp
    simp only [pay_bill, withGuard, hlock]
    rw [if_neg (by simp)]
    simp only [hb, hc, hp]
    rw [if_neg (by simpa using ha)]
    simp [errO]
    exact clearLock_eq s hlock
  · intro lp hp hact hday hrec hlp _ hlt
    have hdp : doublePayBlocked env.now bill = true := by
      simp [doublePayBlocked, hrec, hlp, hlt]
    simp only [pay_bill, withGuard, hlock]
    rw [if_neg (by simp)]
    simp only [hb, hc, hp, hdp]
    rw [if_neg (by simpa using ha), if_neg (by simp), if_neg (by simp [hact]),
      if_neg (not_not_intro hday)]
    simp [errO]
    exact clearLock_eq s hlock

/-- C7 witness: a second same-day payment of the recurring fixture bill
(paid 100 seconds ago) is rejected with `BillAlreadyPaid` and leaves
the state unchanged; a paid non-recurring bill is likewise rejected. -/
theorem pay_bill_anti_double_pay_witness :
    pay_bill envP stateRL 1 = errO .BillAlreadyPaid stateRL ∧
    pay_bill envP stateP 2 = errO .BillAlreadyPaid stateP := by
  constructor
  · exact (pay_bill_anti_double_pay envP stateRL 1 billRL cycleA
      rfl rfl rfl rfl).2 1900800 rfl rfl (by decide) rfl rfl (by decide) (by decide)
  · exact (pay_bill_anti_double_pay envP stateP 2 billP cycleA
      rfl rfl rfl rfl).1 rfl rfl

theorem totalPaidBills_lock (s : ContractState) (cid : Nat) (b : Bool) :
    totalPaidBills { s with reentrancyLock := b } cid = totalPaidBills s cid := rfl

/-- C2 (amended): `end_cycle` requires no authorization; it fails
`CycleNotEnded` before the end date, `CycleAlreadyEnded` on an inactive
cycle, and otherwise deactivates the cycle and transfers exactly
`total_deposited - operating_fee - Σ(paid bill amounts)` to the owner
when that surplus is positive (no transfer otherwise), emitting
`CycleEnded` with the surplus.  The environment's authorization set is
arbitrary and unused. -/
theorem end_cycle_closure (env : Env) (s : ContractState) (cycle_id : Nat)
    (cycle : BillCycle) (tok : Address)
    (hc : lookupA s.cycles cycle_id = some cycle)
    (hlock : s.reentrancyLock = false)
    (husdc : s.usdcToken = some tok) :
    (env.now < cycle.end_date → end_cycle env s cycle_id = errO .CycleNotEnded s) ∧
    (cycle.end_date ≤ env.now → cycle.is_active = false →
      end_cycle env s cycle_id = errO .CycleAlreadyEnded s) ∧
    (cycle.end_date ≤ env.now → cycle.is_active = true →
      end_cycle env s cycle_id =
        { res := .ok ()
          state := { s with
            cycles := setA s.cycles cycle_id { cycle with is_active := false }
            reentrancyLock := false }
          transfers :=
            (if 0 < cycle.total_deposited - cycle.operating_fee - totalPaidBills s cycle_id then
              [{ src := env.contractAddr, dst := cycle.user,
                 amount := cycle.total_deposited - cycle.operating_fee - totalPaidBills s cycle_id }]
            else [])
          events := [.CycleEnded cycle_id
            (cycle.total_deposited - cycle.operating_fee - totalPaidBills s cycle_id)] }) := by
  refine ⟨?_, ?_, ?_⟩
  · intro hlt
    simp only [end_cycle, withGuard, hlock]
    rw [if_neg (by simp)]
    simp only [hc]
    rw [if_pos hlt]
    simp [errO]
    exact clearLock_eq s hlock
  · intro hge hact
    simp only [end_cycle, withGuard, hlock, end_cycle_internal]
    rw [if_neg (by simp)]
    simp only [hc]
    rw [if_neg (by omega), if_pos (by simp [hact])]
    simp [errO]
    exact clearLock_eq s hlock
  · intro hge hact
    simp only [end_cycle, withGuard, hlock, end_cycle_internal]
    rw [if_neg (by simp)]
    simp only [hc]
    rw [if_neg (by omega), if_neg (by simp [hact])]
    simp only [totalPaidBills_lock]
    by_cases hs : 0 < cycle.total_deposited - cycle.operating_fee - totalPaidBills s cycle_id
    · rw [if_pos hs, if_pos hs]
      simp only [husdc]
    · rw [if_neg hs, if_neg hs]

/-- C2 witness: at the end date the fixture cycle closes with surplus
98 = 100 - 2 - 0 paid to the owner; before the end date the call fails
`CycleNotEnded` unchanged. -/
theorem end_cycle_closure_witness :
    (end_cycle envE stateR 1).transfers = [{ src := 0, dst := 5, amount := 98 }] ∧
    end_cycle envA stateR 1 = errO .CycleNotEnded stateR := by
  constructor
  · have h := (end_cycle_closure envE stateR 1 cycleA 7 rfl rfl rfl).2.2 (by decide) rfl
    rw [h]
    decide
  · exact (end_cycle_closure envA stateR 1 cycleA 7 rfl rfl rfl).1 (by decide)

/-- C4 (amended): the reentrancy guard covers `pay_bill`,
`admin_pay_bill`, `end_cycle` and `admin_end_cycle` (each fails with
`Reentrancy` when the lock flag is already set and leaves the flag
clear on every return path), but not `create_cycle`, which performs
value transfers unguarded.  The admin entry points check the admin
authorization before taking the guard. -/
theorem reentrancy_guard_coverage (env : Env) (s : ContractState)
    (bill_id cycle_id : Nat) :
    (s.reentrancyLock = true →
      pay_bill env s bill_id = errO .Reentrancy s ∧
      end_cycle env s cycle_id = errO .Reentrancy s ∧
      (requireAdmin env s = none → admin_pay_bill env s bill_id = errO .Reentrancy s) ∧
      (requireAdmin env s = none → admin_end_cycle env s cycle_id = errO .Reentrancy s)) ∧
    (s.reentrancyLock = false →
      (pay_bill env s bill_id).state.reentrancyLock = false ∧
      (end_cycle env s cycle_id).state.reentrancyLock = false ∧
      (admin_pay_bill env s bill_id).state.reentrancyLock = false ∧
      (admin_end_cycle env s cycle_id).state.reentrancyLock = false) := by
  constructor
  · intro hl
    refine ⟨withGuard_locked _ _ hl, withGuard_locked _ _ hl, ?_, ?_⟩
    · intro hadm
      simp only [admin_pay_bill, hadm]
      exact withGuard_locked _ _ hl
    · intro hadm
      simp only [admin_end_cycle, hadm]
      exact withGuard_locked _ _ hl
  · intro hl
    refine ⟨withGuard_lock_clear _ _ hl, withGuard_lock_clear _ _ hl, ?_, ?_⟩
    · cases hadm : requireAdmin env s with
      | some e =>
        simp only [admin_pay_bill, hadm]
        simpa [errO] using hl
      | none =>
        simp only [admin_pay_bill, hadm]
        exact withGuard_lock_clear _ _ hl
    · cases hadm : requireAdmin env s with
      | some e =>
        simp only [admin_end_cycle, hadm]
        simpa [errO] using hl
      | none =>
        simp only [admin_end_cycle, hadm]
        exact withGuard_lock_clear _ _ hl

/-- C4 witness: with the lock set, `pay_bill` is rejected unchanged;
with the lock clear, `end_cycle` completes with the flag clear. -/
theorem reentrancy_guard_coverage_witness :
    pay_bill envA stateLock 1 = errO .Reentrancy stateLock ∧
    (end_cycle envE stateA 1).state.reentrancyLock = false := by
  exact ⟨((reentrancy_guard_coverage envA stateLock 1 1).1 rfl).1,
    ((reentrancy_guard_coverage envE stateA 1 1).2 rfl).2.1⟩

/-! ## Batch-addition stability lemmas (C3) -/

end LockedIn
